import Mathlib

/-!
Shallow embedding of the fall-detection decision core of
`demo_detector.py` and the debounce loop of `main.py`.

Conventions of the embedding:
* pixel coordinates are `Int` (the code applies `int(...)` to every box
  coordinate and keypoint coordinate);
* confidences, visibilities, ratios, thresholds and wall-clock times are
  exact rationals `ℚ` (the code uses floats; every computation here stays
  far from double rounding, so exact arithmetic is the faithful model);
* Python's `ZeroDivisionError` is modelled by `Option`: a division whose
  denominator is zero yields `none`, and `none` propagates exactly along
  the code's evaluation order;
* the `info` dict built by `detect` maps a class name to a nonempty list
  of boxes, a key being present iff at least one detection of that class
  was appended; `Info` stores one list per allowed class, with the empty
  list standing for an absent key.
-/

namespace FallDemo

/-- A stored detection box, as kept in the `info` dict of `detect`
(`x1,y1,x2,y2` ints; `width`/`height` are stored as `x2-x1`/`y2-y1`,
so they are modelled as derived fields). -/
structure Box where
  x1 : Int
  y1 : Int
  x2 : Int
  y2 : Int
deriving DecidableEq, Repr

def Box.width (b : Box) : Int := b.x2 - b.x1

def Box.height (b : Box) : Int := b.y2 - b.y1

/-- A raw YOLO detection before filtering: class name, confidence and box. -/
structure RawDet where
  cls : String
  conf : ℚ
  x1 : Int
  y1 : Int
  x2 : Int
  y2 : Int
deriving DecidableEq, Repr

def RawDet.toBox (d : RawDet) : Box := ⟨d.x1, d.y1, d.x2, d.y2⟩

/-- One Mediapipe pose landmark after pixel scaling: `(x, y, visibility)`. -/
structure Keypoint where
  x : Int
  y : Int
  vis : ℚ
deriving DecidableEq, Repr

/-- The `info` dict grouped by class; an absent key is the empty list. -/
structure Info where
  person : List Box
  sofa : List Box
  bed : List Box
  chair : List Box
deriving DecidableEq, Repr

/-- `classnames` filter of `detect` line 46. -/
def allowedClasses : List String := ["person", "sofa", "bed", "chair"]

/-- The per-keypoint test of `detect` lines 54-55:
`kp[2] >= KEYPOINT_VISIBILITY_THRESHOLD and x1 <= kp[0] <= x2 and y1 <= kp[1] <= y2`. -/
def kpVisibleIn (d : RawDet) (kp : Keypoint) : Bool :=
  decide (35/100 ≤ kp.vis) && decide (d.x1 ≤ kp.x) && decide (kp.x ≤ d.x2) &&
    decide (d.y1 ≤ kp.y) && decide (kp.y ≤ d.y2)

/-- `kp_fraction = len(visible_kps) / TOTAL_LANDMARKS` (line 56). -/
def kpFraction (d : RawDet) (kps : List Keypoint) : ℚ :=
  ((kps.filter (kpVisibleIn d)).length : ℚ) / 33

/-- Whether a raw detection survives the two `continue` filters of
`detect` (lines 46-58): confidence/class filter, then for `person`
the body-visibility filter. -/
def keepDet (confThreshold : ℚ) (kps : List Keypoint) (d : RawDet) : Bool :=
  if d.conf < confThreshold ∨ d.cls ∉ allowedClasses then false
  else if d.cls = "person" then
    if kpFraction d kps < 1/2 then false else true
  else true

/-- `info[class_detect].append(...)` with dynamic key creation
(lines 61-66); classes outside the allowed set never reach this point. -/
def Info.add (info : Info) (cls : String) (b : Box) : Info :=
  if cls = "person" then { info with person := info.person ++ [b] }
  else if cls = "sofa" then { info with sofa := info.sofa ++ [b] }
  else if cls = "bed" then { info with bed := info.bed ++ [b] }
  else if cls = "chair" then { info with chair := info.chair ++ [b] }
  else info

/-- The threshold comparison of `detect` line 78: `ratio < 1.15`. -/
def lyingTest (ratio : ℚ) : Bool := decide (ratio < 23/20)

/-- The lying heuristic of `detect` lines 77-78:
`ratio = height / (width + 1e-6)`, then the threshold test. -/
def isLying (b : Box) : Bool :=
  lyingTest ((b.height : ℚ) / ((b.width : ℚ) + 1/1000000))

/-- One iteration of the detection loop of `detect` (lines 40-87) on the
running state `(fall_suspected, info)`.  Note lines 79 and 84: for a kept
person the flag is ASSIGNED (`True` in the lying branch, `False` in the
standing branch), not OR-ed. -/
def detectStep (confThreshold : ℚ) (kps : List Keypoint) (st : Bool × Info)
    (d : RawDet) : Bool × Info :=
  if keepDet confThreshold kps d then
    let info2 := st.2.add d.cls d.toBox
    let fs2 := if d.cls = "person" then isLying d.toBox else st.1
    (fs2, info2)
  else st

/-- The decision core of `detect` (lines 23-89): fold the detection loop
over the raw detections, starting from `fall_suspected = False` and an
empty `info`; returns `(fall_suspected, info)`. -/
def detect (confThreshold : ℚ) (kps : List Keypoint) (dets : List RawDet) :
    Bool × Info :=
  dets.foldl (detectStep confThreshold kps) (false, ⟨[], [], [], []⟩)

/-- Division as Python evaluates it: `none` models `ZeroDivisionError`. -/
def divQ (n d : ℚ) : Option ℚ := if d = 0 then none else some (n / d)

/-- `box_iou` of `check_person_on_object` (lines 94-104), with the
division modelled fallibly (the code guards `inter_area == 0` and
returns `0` there). -/
def box_iou (a b : Box) : Option ℚ :=
  let xA := max a.x1 b.x1
  let yA := max a.y1 b.y1
  let xB := min a.x2 b.x2
  let yB := min a.y2 b.y2
  let interArea := max 0 (xB - xA) * max 0 (yB - yA)
  if interArea = 0 then some 0
  else
    let areaA := (a.x2 - a.x1) * (a.y2 - a.y1)
    let areaB := (b.x2 - b.x1) * (b.y2 - b.y1)
    divQ (interArea : ℚ) ((areaA + areaB - interArea : Int) : ℚ)

/-- The body of the innermost object loop (lines 119-132): compute IoU,
`horizontal_fraction` (UNGUARDED division by the person's width) and
`vertical_position_ok`, then the combined support condition. -/
def objCheck (iouThreshold verticalTolerance : ℚ) (p o : Box) : Option Bool := do
  let overlap ← box_iou p o
  let hOverlap : Int := max 0 (min p.x2 o.x2 - max p.x1 o.x1)
  let hFraction ← divQ (hOverlap : ℚ) ((p.x2 - p.x1 : Int) : ℚ)
  let vOk := decide (p.y2 ≤ o.y2) &&
    decide ((o.y1 : ℚ) - (o.height : ℚ) * verticalTolerance ≤ (p.y2 : ℚ))
  pure (decide (iouThreshold < overlap) && decide (1/2 < hFraction) && vOk)

/-- The inner `for obj in info[obj_name]` loop (lines 119-136): stop at
the first object satisfying the support condition (`break`); report
whether a match was found. -/
def scanObjs (iouThreshold verticalTolerance : ℚ) (p : Box) :
    List Box → Option Bool
  | [] => some false
  | o :: rest => do
      let hit ← objCheck iouThreshold verticalTolerance p o
      if hit then pure true
      else scanObjs iouThreshold verticalTolerance p rest

/-- The `for obj_name in ['bed', 'sofa', 'chair']` loop for one person
(lines 115-138) on the running accumulator `actuallyFall`: an absent key
(`[]`) is skipped by `continue`; a present class is scanned, a match sets
the accumulator to `False`, and `if not actually_fall: break` leaves the
class loop as soon as the accumulator is `False`. -/
def scanClasses (iouThreshold verticalTolerance : ℚ) (p : Box)
    (actuallyFall : Bool) : List (List Box) → Option Bool
  | [] => some actuallyFall
  | objs :: rest =>
      if objs.isEmpty then
        scanClasses iouThreshold verticalTolerance p actuallyFall rest
      else do
        let hit ← scanObjs iouThreshold verticalTolerance p objs
        let af2 := if hit then false else actuallyFall
        if af2 then scanClasses iouThreshold verticalTolerance p af2 rest
        else pure false

/-- The outer `for person in info['person']` loop (lines 111-142): the
accumulator threads through all persons, never re-initialized. -/
def personLoop (iouThreshold verticalTolerance : ℚ) (info : Info)
    (actuallyFall : Bool) : List Box → Option Bool
  | [] => some actuallyFall
  | p :: rest => do
      let af2 ← scanClasses iouThreshold verticalTolerance p actuallyFall
        [info.bed, info.sofa, info.chair]
      personLoop iouThreshold verticalTolerance info af2 rest

/-- `check_person_on_object` (lines 92-144): early `return False` when
the `person` key is absent; otherwise `actually_fall = True` once, then
the person loop; defaults in the code are `iou_threshold=0.1`,
`vertical_tolerance=0.35`. -/
def check_person_on_object (info : Info)
    (iouThreshold verticalTolerance : ℚ) : Option Bool :=
  if info.person.isEmpty then some false
  else personLoop iouThreshold verticalTolerance info true info.person

/-- One iteration of the debounce logic of `camera_loop`
(`main.py` lines 41-56) on the state `fall_detected_time`; both calls to
`time.time()` within one iteration are modelled as the same frame
timestamp `now`.  Returns the new state and whether an alert fired. -/
def camStep (st : Option ℚ) (fallen : Bool) (now : ℚ) : Option ℚ × Bool :=
  let st1 : Option ℚ :=
    if fallen then
      match st with
      | none => some now
      | some t => some t
    else none
  match st1 with
  | none => (none, false)
  | some t => if 5 ≤ now - t then (none, true) else (some t, false)

/-- Run the debounce over a list of frames `(actually_fallen, now)`;
returns the final state and the per-frame alert flags. -/
def camRun (st : Option ℚ) : List (Bool × ℚ) → Option ℚ × List Bool
  | [] => (st, [])
  | (f, t) :: rest =>
      let s := camStep st f t
      let r := camRun s.1 rest
      (r.1, s.2 :: r.2)

/-- Total-function counterpart of `box_iou`: same formula, with the
(never-failing) division written as total rational division. -/
def iouTotal (a b : Box) : ℚ :=
  let interArea := max 0 (min a.x2 b.x2 - max a.x1 b.x1) *
    max 0 (min a.y2 b.y2 - max a.y1 b.y1)
  if interArea = 0 then 0
  else (interArea : ℚ) /
    (((a.x2 - a.x1) * (a.y2 - a.y1) + (b.x2 - b.x1) * (b.y2 - b.y1) -
      interArea : Int) : ℚ)

/-- Total-function counterpart of `horizontal_fraction` (line 128-129). -/
def hFracTotal (p o : Box) : ℚ :=
  ((max 0 (min p.x2 o.x2 - max p.x1 o.x1) : Int) : ℚ) / ((p.x2 - p.x1 : Int) : ℚ)

/-- The combined support condition of line 132, as a total predicate. -/
def qualifies (iouThreshold verticalTolerance : ℚ) (p o : Box) : Bool :=
  decide (iouThreshold < iouTotal p o) && decide (1/2 < hFracTotal p o) &&
    (decide (p.y2 ≤ o.y2) &&
      decide ((o.y1 : ℚ) - (o.height : ℚ) * verticalTolerance ≤ (p.y2 : ℚ)))

/-- A person in `info` counts as supported when some object, scanned in
the order `bed ++ sofa ++ chair`, satisfies the support condition. -/
def personSupported (iouThreshold verticalTolerance : ℚ) (info : Info)
    (p : Box) : Bool :=
  (info.bed ++ info.sofa ++ info.chair).any
    (qualifies iouThreshold verticalTolerance p)

theorem union_area_pos (a b : Box)
    (h : max 0 (min a.x2 b.x2 - max a.x1 b.x1) *
      max 0 (min a.y2 b.y2 - max a.y1 b.y1) ≠ 0) :
    0 < (a.x2 - a.x1) * (a.y2 - a.y1) + (b.x2 - b.x1) * (b.y2 - b.y1) -
      max 0 (min a.x2 b.x2 - max a.x1 b.x1) *
        max 0 (min a.y2 b.y2 - max a.y1 b.y1) := by
  set dx := min a.x2 b.x2 - max a.x1 b.x1 with hdx
  set dy := min a.y2 b.y2 - max a.y1 b.y1 with hdy
  have hx0 : (0 : Int) ≤ max 0 dx := le_max_left _ _
  have hy0 : (0 : Int) ≤ max 0 dy := le_max_left _ _
  have hprod : 0 < max 0 dx * max 0 dy :=
    lt_of_le_of_ne (mul_nonneg hx0 hy0) (Ne.symm h)
  have hdx1 : 0 < dx := by
    by_contra hc
    push_neg at hc
    rw [max_eq_left hc, zero_mul] at hprod
    exact lt_irrefl 0 hprod
  have hdy1 : 0 < dy := by
    by_contra hc
    push_neg at hc
    rw [max_eq_left hc, mul_zero] at hprod
    exact lt_irrefl 0 hprod
  rw [max_eq_right hdx1.le, max_eq_right hdy1.le]
  have hax : dx ≤ a.x2 - a.x1 := by omega
  have hay : dy ≤ a.y2 - a.y1 := by omega
  have hbx : dx ≤ b.x2 - b.x1 := by omega
  have hby : dy ≤ b.y2 - b.y1 := by omega
  nlinarith [mul_le_mul hax hay hdy1.le (hdx1.le.trans hax),
    mul_le_mul hbx hby hdy1.le (hdx1.le.trans hbx), mul_pos hdx1 hdy1]

theorem box_iou_eq_total (a b : Box) : box_iou a b = some (iouTotal a b) := by
  by_cases h : max 0 (min a.x2 b.x2 - max a.x1 b.x1) *
      max 0 (min a.y2 b.y2 - max a.y1 b.y1) = 0
  · simp [box_iou, iouTotal, h]
  · have hpos := union_area_pos a b h
    have hden : (((a.x2 - a.x1) * (a.y2 - a.y1) + (b.x2 - b.x1) * (b.y2 - b.y1) -
        max 0 (min a.x2 b.x2 - max a.x1 b.x1) *
          max 0 (min a.y2 b.y2 - max a.y1 b.y1) : Int) : ℚ) ≠ 0 :=
      Int.cast_ne_zero.mpr hpos.ne'
    simp only [box_iou, iouTotal, divQ, if_neg h, if_neg hden]

theorem objCheck_eq (t v : ℚ) (p o : Box) (hw : p.x1 < p.x2) :
    objCheck t v p o = some (qualifies t v p o) := by
  have hden : ((p.x2 - p.x1 : Int) : ℚ) ≠ 0 := Int.cast_ne_zero.mpr (by omega)
  simp only [objCheck, box_iou_eq_total, divQ, qualifies, hFracTotal,
    Option.pure_def, if_neg hden]
  rfl

theorem scanObjs_eq (t v : ℚ) (p : Box) (hw : p.x1 < p.x2) (objs : List Box) :
    scanObjs t v p objs = some (objs.any (qualifies t v p)) := by
  induction objs with
  | nil => simp [scanObjs]
  | cons o rest ih =>
      rw [scanObjs, objCheck_eq t v p o hw]
      by_cases hq : qualifies t v p o = true
      · simp [hq]
      · simp only [Bool.not_eq_true] at hq
        simp [hq, ih]

theorem scanClasses_eq (t v : ℚ) (p : Box) (hw : p.x1 < p.x2) (af : Bool)
    (classes : List (List Box)) :
    scanClasses t v p af classes =
      some (af && !(classes.any (fun objs => objs.any (qualifies t v p)))) := by
  induction classes generalizing af with
  | nil => simp [scanClasses]
  | cons objs rest ih =>
      rw [scanClasses]
      by_cases he : objs.isEmpty
      · rw [if_pos he, ih af]
        rw [List.isEmpty_iff] at he
        simp [he]
      · rw [if_neg he, scanObjs_eq t v p hw objs]
        by_cases hq : objs.any (qualifies t v p) = true
        · simp [hq]
        · simp only [Bool.not_eq_true] at hq
          by_cases haf : af = true
          · simp [hq, haf, ih]
          · simp only [Bool.not_eq_true] at haf
            simp [hq, haf]

theorem personLoop_eq (t v : ℚ) (info : Info) :
    ∀ (ps : List Box), (∀ p ∈ ps, p.x1 < p.x2) → ∀ (af : Bool),
      personLoop t v info af ps =
        some (af && ps.all (fun p => !(personSupported t v info p)))
  | [], _, af => by simp [personLoop]
  | p :: rest, hw, af => by
      have hp : p.x1 < p.x2 := hw p (List.mem_cons_self p rest)
      have hrest : ∀ q ∈ rest, q.x1 < q.x2 := fun q hq =>
        hw q (List.mem_cons_of_mem p hq)
      have hclasses : ([info.bed, info.sofa, info.chair].any
          (fun objs => objs.any (qualifies t v p))) = personSupported t v info p := by
        simp [personSupported, List.any_append, Bool.or_assoc]
      rw [personLoop, scanClasses_eq t v p hp af, hclasses]
      show personLoop t v info (af && !(personSupported t v info p)) rest = _
      rw [personLoop_eq t v info rest hrest]
      simp [Bool.and_assoc]

theorem check_person_eq (t v : ℚ) (info : Info) (hne : info.person ≠ [])
    (hw : ∀ p ∈ info.person, p.x1 < p.x2) :
    check_person_on_object info t v =
      some (!(info.person.any (personSupported t v info))) := by
  rw [check_person_on_object, if_neg (by simpa [List.isEmpty_iff] using hne),
    personLoop_eq t v info info.person hw true]
  simp [List.all_eq_not_any_not]

theorem camStep_false_eq (st : Option ℚ) (now : ℚ) :
    camStep st false now = (none, false) := rfl

theorem camStep_onset (now : ℚ) : camStep none true now = (some now, false) := by
  have h : ¬ (5 : ℚ) ≤ now - now := by simp
  simp [camStep, h]

theorem camStep_hold (t0 now : ℚ) (h : now - t0 < 5) :
    camStep (some t0) true now = (some t0, false) := by
  have h2 : ¬ (5 : ℚ) ≤ now - t0 := not_le.mpr h
  simp [camStep, h2]

theorem camStep_fire (t0 now : ℚ) (h : 5 ≤ now - t0) :
    camStep (some t0) true now = (none, true) := by
  simp [camStep, h]

theorem camRun_append (st : Option ℚ) (l1 l2 : List (Bool × ℚ)) :
    camRun st (l1 ++ l2) =
      ((camRun (camRun st l1).1 l2).1,
        (camRun st l1).2 ++ (camRun (camRun st l1).1 l2).2) := by
  induction l1 generalizing st with
  | nil => simp [camRun]
  | cons f rest ih =>
      obtain ⟨fb, ft⟩ := f
      simp [camRun, ih]

theorem camRun_stay (t0 : ℚ) (ts : List ℚ) (h : ∀ t ∈ ts, t - t0 < 5) :
    camRun (some t0) (ts.map (fun t => (true, t))) =
      (some t0, List.replicate ts.length false) := by
  induction ts with
  | nil => simp [camRun]
  | cons t rest ih =>
      have ht : t - t0 < 5 := h t (List.mem_cons_self t rest)
      have hrest : ∀ s ∈ rest, s - t0 < 5 := fun s hs =>
        h s (List.mem_cons_of_mem t hs)
      simp [camRun, camStep_hold t0 t ht, ih hrest, List.replicate_succ]

/-- C1: evaluation of `detect` at the failing input.  Two surviving
persons (all 33 keypoints visible inside both boxes, confidence 0.9): the
first is lying (ratio 0.5), the second standing (ratio 2).  The claim and
the spec say `fall_suspected` is the OR over persons (here `true`,
independent of order), but the code assigns the flag anew for each person
(lines 79 and 84 of `demo_detector.py`), so the standing person
overwrites the lying one and `detect` returns `false`; reversing the
detector order returns `true`. -/
theorem fall_suspected_is_last_person_not_or :
    (detect (6/10) (List.replicate 33 ⟨50, 50, 1⟩)
      [⟨"person", 9/10, 0, 0, 200, 100⟩, ⟨"person", 9/10, 0, 0, 100, 200⟩]).1
        = false ∧
    ((detect (6/10) (List.replicate 33 ⟨50, 50, 1⟩)
      [⟨"person", 9/10, 0, 0, 200, 100⟩, ⟨"person", 9/10, 0, 0, 100, 200⟩]).2.person.any
        isLying) = true ∧
    (detect (6/10) (List.replicate 33 ⟨50, 50, 1⟩)
      [⟨"person", 9/10, 0, 0, 100, 200⟩, ⟨"person", 9/10, 0, 0, 200, 100⟩]).1
        = true := by
  with_unfolding_all decide

/-- C2 counterexample: person p1 = (100,200,260,260) is supported by the
bed (80,180,280,280); person p2 = (1000,1000,1160,1060) has no qualifying
support (its scan of the only furniture list finds nothing, second
conjunct).  The claim says p2 would be reported actually fallen, but
`check_person_on_object` returns the single accumulator, which p1 already
set to `False`: the frame result is `some false`. -/
theorem person_assessment_not_independent :
    check_person_on_object
      ⟨[⟨100, 200, 260, 260⟩, ⟨1000, 1000, 1160, 1060⟩], [],
        [⟨80, 180, 280, 280⟩], []⟩ (1/10) (35/100) = some false ∧
    scanObjs (1/10) (35/100) ⟨1000, 1000, 1160, 1060⟩ [⟨80, 180, 280, 280⟩]
      = some false := by
  with_unfolding_all decide

/-- C2 (amended): `check_person_on_object` does NOT assess persons
independently; the accumulator is initialized once before the person loop
and the function returns a single frame-level boolean, which is `false`
exactly when some person in the frame has a qualifying support object. -/
theorem check_person_frame_level (info : Info) (hne : info.person ≠ [])
    (hw : ∀ p ∈ info.person, p.x1 < p.x2) :
    (check_person_on_object info (1/10) (35/100) = some false ↔
      ∃ p ∈ info.person, personSupported (1/10) (35/100) info p = true) := by
  rw [check_person_eq (1/10) (35/100) info hne hw]
  simp [List.any_eq_true]

/-- C2 witness: the amended statement applied to a one-person frame whose
person lies on the bed. -/
theorem check_person_frame_level_witness :
    (check_person_on_object ⟨[⟨100, 200, 260, 260⟩], [], [⟨80, 180, 280, 280⟩], []⟩
        (1/10) (35/100) = some false ↔
      ∃ p ∈ (⟨[⟨100, 200, 260, 260⟩], [], [⟨80, 180, 280, 280⟩], []⟩ : Info).person,
        personSupported (1/10) (35/100)
          ⟨[⟨100, 200, 260, 260⟩], [], [⟨80, 180, 280, 280⟩], []⟩ p = true) :=
  check_person_frame_level ⟨[⟨100, 200, 260, 260⟩], [], [⟨80, 180, 280, 280⟩], []⟩
    (by simp) (by intro p hp; simp at hp; subst hp; decide)

/-- C3 counterexample: an unbroken run of `actually_fallen = true` frames
at times 0, 5, 6, 11 seconds fires TWO alerts (at t=5 and t=11), because
the code clears `fall_detected_time` after firing and re-arms it at the
next true frame of the same run; the claim says exactly one alert per
unbroken run reaching 5 seconds. -/
theorem camera_loop_two_alerts_one_run :
    (camRun none [(true, 0), (true, 5), (true, 6), (true, 11)]).2 =
      [false, true, false, true] ∧
    ((camRun none [(true, 0), (true, 5), (true, 6), (true, 11)]).2.count true) = 2 := by
  with_unfolding_all decide

/-- C3 (amended): one alert per 5-second accumulation of the timestamp.
A false frame always clears the timestamp and fires nothing; a true frame
from a cleared timestamp records the onset `now` and fires nothing; and
from an onset `t0`, a run of true frames whose times stay within 5
seconds of `t0` fires nothing and keeps the onset, while the first true
frame `tf` with `tf - t0 ≥ 5` fires the (single) alert and clears the
timestamp — so a continuing unbroken run must re-accumulate a full
further 5 seconds before any second alert. -/
theorem camera_debounce_amended (t0 tf now : ℚ) (st : Option ℚ)
    (pre : List ℚ) (hpre : ∀ t ∈ pre, t - t0 < 5) (hf : 5 ≤ tf - t0) :
    camStep st false now = (none, false) ∧
    camStep none true now = (some now, false) ∧
    camRun (some t0) ((pre ++ [tf]).map (fun t => (true, t))) =
      (none, List.replicate pre.length false ++ [true]) := by
  refine ⟨camStep_false_eq st now, camStep_onset now, ?_⟩
  rw [List.map_append, camRun_append, camRun_stay t0 pre hpre]
  simp [camRun, camStep_fire t0 tf hf]

/-- C3 witness: onset at time 0, one intermediate frame at 2 s, firing
frame at 5 s. -/
theorem camera_debounce_amended_witness :
    camStep (some 3) false 7 = (none, false) ∧
    camStep none true 7 = (some 7, false) ∧
    camRun (some 0) ((([2] : List ℚ) ++ [5]).map (fun t => (true, t))) =
      (none, List.replicate ([2] : List ℚ).length false ++ [true]) :=
  camera_debounce_amended 0 5 7 (some 3) [2]
    (by intro t ht; simp at ht; subst ht; norm_num) (by norm_num)

theorem find_isNone_eq_not_any (q : Box → Bool) :
    ∀ l : List Box, ((l.find? q).isNone) = !(l.any q)
  | [] => rfl
  | b :: rest => by
      by_cases h : q b = true
      · simp [List.find?_cons, h]
      · simp only [Bool.not_eq_true] at h
        simp [List.find?_cons, h, find_isNone_eq_not_any q rest]

/-- C4: for a single-person frame, `check_person_on_object` reports the
person supported (`some false`) exactly when the scan order
`bed ++ sofa ++ chair` (class priority first, detector order within a
class) contains a first object satisfying
`IoU > 0.1 AND horizontal_fraction > 0.5 AND vertical_position_ok`
(the predicate `qualifies`, translated from line 130-132); the loop
`break`s at that first match.  Second conjunct: the concrete scenario,
person (100,200,260,260) on bed (80,180,280,280), yields `some false`. -/
theorem support_first_match (p : Box) (sofa bed chair : List Box)
    (hw : p.x1 < p.x2) :
    check_person_on_object ⟨[p], sofa, bed, chair⟩ (1/10) (35/100) =
      some (((bed ++ sofa ++ chair).find? (qualifies (1/10) (35/100) p)).isNone) ∧
    check_person_on_object ⟨[⟨100, 200, 260, 260⟩], [], [⟨80, 180, 280, 280⟩], []⟩
      (1/10) (35/100) = some false := by
  constructor
  · rw [check_person_eq (1/10) (35/100) ⟨[p], sofa, bed, chair⟩ (by simp)
      (by intro q hq; simp at hq; subst hq; exact hw)]
    rw [find_isNone_eq_not_any]
    simp [personSupported]
  · with_unfolding_all decide

/-- C4 witness: the general part applied to the scenario-C boxes. -/
theorem support_first_match_witness :
    check_person_on_object ⟨[⟨100, 200, 260, 260⟩], [], [⟨80, 180, 280, 280⟩], []⟩
        (1/10) (35/100) =
      some (((([⟨80, 180, 280, 280⟩] : List Box) ++ [] ++ []).find?
        (qualifies (1/10) (35/100) ⟨100, 200, 260, 260⟩)).isNone) ∧
    check_person_on_object ⟨[⟨100, 200, 260, 260⟩], [], [⟨80, 180, 280, 280⟩], []⟩
      (1/10) (35/100) = some false :=
  support_first_match ⟨100, 200, 260, 260⟩ [] [⟨80, 180, 280, 280⟩] []
    (by decide)

/-- C5 counterexample: a zero-width person box (100,100,100,200) with a
bed present reaches `horizontal_fraction = horizontal_overlap / (px2 - px1)`
(line 129), whose denominator is 0 and which has NO zero-guard:
`check_person_on_object` raises `ZeroDivisionError` (modelled `none`)
instead of degrading gracefully. -/
theorem horizontal_fraction_division_error :
    check_person_on_object ⟨[⟨100, 100, 100, 200⟩], [], [⟨0, 0, 300, 300⟩], []⟩
      (1/10) (35/100) = none := by
  with_unfolding_all decide

/-- C5 (amended): the IoU computation alone is guarded (it never fails,
returning 0 for degenerate or non-overlapping boxes), and
`check_person_on_object` never fails PROVIDED every person box has
positive width; the `horizontal_fraction` division is unguarded, so the
proviso cannot be dropped. -/
theorem division_guards (a b : Box) (info : Info)
    (hw : ∀ p ∈ info.person, p.x1 < p.x2) :
    (box_iou a b).isSome = true ∧
    (check_person_on_object info (1/10) (35/100)).isSome = true := by
  constructor
  · rw [box_iou_eq_total]
    rfl
  · by_cases hne : info.person = []
    · simp [check_person_on_object, hne]
    · rw [check_person_eq (1/10) (35/100) info hne hw]
      rfl

/-- C5 witness: a degenerate zero-area box against a disjoint point box,
and a frame with a positive-width person on a bed. -/
theorem division_guards_witness :
    (box_iou ⟨0, 0, 0, 0⟩ ⟨5, 5, 5, 5⟩).isSome = true ∧
    (check_person_on_object ⟨[⟨0, 0, 4, 2⟩], [], [⟨0, 0, 300, 300⟩], []⟩
      (1/10) (35/100)).isSome = true :=
  division_guards ⟨0, 0, 0, 0⟩ ⟨5, 5, 5, 5⟩
    ⟨[⟨0, 0, 4, 2⟩], [], [⟨0, 0, 300, 300⟩], []⟩
    (by intro p hp; simp at hp; subst hp; decide)

/-- C6: a raw detection is kept iff its confidence is ≥ 0.6 and its class
is allowed, and, for `person`, the fraction of the 33 keypoints that are
visible (≥ 0.35) inside the box (inclusive bounds) is ≥ 0.5; with an
empty keypoint sequence every person detection is discarded; and a
discarded detection leaves the `detect` state untouched (it never reaches
posture classification). -/
theorem aggregator_filter (kps : List Keypoint) (d e f : RawDet)
    (st : Bool × Info) (he : e.cls = "person")
    (hf : keepDet (6/10) kps f = false) :
    (keepDet (6/10) kps d = true ↔
      (6/10 ≤ d.conf ∧ d.cls ∈ allowedClasses ∧
        (d.cls = "person" → 1/2 ≤ kpFraction d kps))) ∧
    keepDet (6/10) [] e = false ∧
    detectStep (6/10) kps st f = st := by
  refine ⟨?_, ?_, ?_⟩
  · unfold keepDet
    split_ifs with h1 h2 h3
    · simp only [Bool.false_eq_true, false_iff]
      rintro ⟨hc, hm, -⟩
      rcases h1 with h1 | h1
      · exact absurd hc (not_le.mpr h1)
      · exact h1 hm
    · simp only [Bool.false_eq_true, false_iff]
      rintro ⟨-, -, himp⟩
      exact absurd (himp h2) (not_le.mpr h3)
    · push_neg at h1
      simp only [true_iff]
      exact ⟨h1.1, h1.2, fun _ => not_lt.mp h3⟩
    · push_neg at h1
      simp only [true_iff]
      exact ⟨h1.1, h1.2, fun hp => absurd hp h2⟩
  · have hz : kpFraction e [] = 0 := by simp [kpFraction]
    norm_num [keepDet, he, hz]
  · simp [detectStep, hf]

/-- C6 witness: a kept person detection, a person detection facing an
empty keypoint list, and a low-confidence detection that leaves the
state unchanged. -/
theorem aggregator_filter_witness :
    (keepDet (6/10) (List.replicate 33 ⟨5, 5, 1⟩) ⟨"person", 9/10, 0, 0, 10, 10⟩ = true ↔
      (6/10 ≤ (⟨"person", 9/10, 0, 0, 10, 10⟩ : RawDet).conf ∧
        (⟨"person", 9/10, 0, 0, 10, 10⟩ : RawDet).cls ∈ allowedClasses ∧
        ((⟨"person", 9/10, 0, 0, 10, 10⟩ : RawDet).cls = "person" →
          1/2 ≤ kpFraction ⟨"person", 9/10, 0, 0, 10, 10⟩ (List.replicate 33 ⟨5, 5, 1⟩)))) ∧
    keepDet (6/10) [] ⟨"person", 1, 0, 0, 10, 10⟩ = false ∧
    detectStep (6/10) (List.replicate 33 ⟨5, 5, 1⟩) (false, ⟨[], [], [], []⟩)
      ⟨"person", 1/2, 0, 0, 10, 10⟩ = (false, ⟨[], [], [], []⟩) :=
  aggregator_filter (List.replicate 33 ⟨5, 5, 1⟩) ⟨"person", 9/10, 0, 0, 10, 10⟩
    ⟨"person", 1, 0, 0, 10, 10⟩ ⟨"person", 1/2, 0, 0, 10, 10⟩
    (false, ⟨[], [], [], []⟩) rfl (by with_unfolding_all decide)

/-- C7: for a surviving (kept) person detection, the posture flag written
by the detection step equals `isLying` of its box, i.e.
`height/(width + 1e-6) < 1.15`; the threshold test at ratio exactly 1.15
yields NOT lying (the comparison is strict `<`; with the 1e-6 epsilon no
integer box attains the ratio exactly, so the boundary is stated on the
threshold test applied to the ratio value); and for fixed nonnegative
width, decreasing the height can only turn standing into lying, never
the reverse. -/
theorem lying_classification (st : Bool × Info) (kps : List Keypoint)
    (d : RawDet) (w hgt hgt2 : Int)
    (hk : keepDet (6/10) kps d = true) (hp : d.cls = "person")
    (hmono : hgt2 ≤ hgt) (hw : 0 ≤ w) :
    (detectStep (6/10) kps st d).1 = isLying d.toBox ∧
    lyingTest (23/20) = false ∧
    (isLying ⟨0, 0, w, hgt⟩ = true → isLying ⟨0, 0, w, hgt2⟩ = true) := by
  refine ⟨?_, ?_, ?_⟩
  · simp [detectStep, hk, hp]
  · simp [lyingTest]
  · intro h
    simp only [isLying, lyingTest, decide_eq_true_eq, Box.height, Box.width,
      sub_zero] at h ⊢
    have hden : (0 : ℚ) < (w : ℚ) + 1/1000000 := by
      have hw2 : (0 : ℚ) ≤ (w : ℚ) := by exact_mod_cast hw
      linarith
    have hc : (hgt2 : ℚ) ≤ (hgt : ℚ) := by exact_mod_cast hmono
    exact lt_of_le_of_lt ((div_le_div_iff_of_pos_right hden).mpr hc) h

/-- C7 witness: a kept lying person detection; width 10, heights 10
and 3. -/
theorem lying_classification_witness :
    (detectStep (6/10) (List.replicate 33 ⟨5, 5, 1⟩) (false, ⟨[], [], [], []⟩)
      ⟨"person", 9/10, 0, 0, 10, 10⟩).1 =
        isLying (⟨"person", 9/10, 0, 0, 10, 10⟩ : RawDet).toBox ∧
    lyingTest (23/20) = false ∧
    (isLying ⟨0, 0, 10, 10⟩ = true → isLying ⟨0, 0, 10, 3⟩ = true) :=
  lying_classification (false, ⟨[], [], [], []⟩) (List.replicate 33 ⟨5, 5, 1⟩)
    ⟨"person", 9/10, 0, 0, 10, 10⟩ 10 10 3
    (by with_unfolding_all decide) rfl (by decide) (by decide)

/-- C8: `box_iou` is `some 1` on a positive-area box against itself, is
symmetric in its two arguments, and is `some 0` whenever the two boxes do
not intersect (the overlap interval is empty in x or in y). -/
theorem box_iou_props (a c d e f : Box)
    (hxa : a.x1 < a.x2) (hya : a.y1 < a.y2)
    (hdisj : min e.x2 f.x2 ≤ max e.x1 f.x1 ∨ min e.y2 f.y2 ≤ max e.y1 f.y1) :
    box_iou a a = some 1 ∧ box_iou c d = box_iou d c ∧ box_iou e f = some 0 := by
  refine ⟨?_, ?_, ?_⟩
  · have hx : max 0 (min a.x2 a.x2 - max a.x1 a.x1) = a.x2 - a.x1 := by
      rw [min_self, max_self]
      exact max_eq_right (by omega)
    have hy : max 0 (min a.y2 a.y2 - max a.y1 a.y1) = a.y2 - a.y1 := by
      rw [min_self, max_self]
      exact max_eq_right (by omega)
    have harea : (a.x2 - a.x1) * (a.y2 - a.y1) ≠ 0 :=
      (mul_pos (by omega : (0:Int) < a.x2 - a.x1) (by omega : (0:Int) < a.y2 - a.y1)).ne'
    have hQ : (((a.x2 - a.x1) * (a.y2 - a.y1) : Int) : ℚ) ≠ 0 :=
      Int.cast_ne_zero.mpr harea
    simp only [box_iou, hx, hy, divQ, if_neg harea, add_sub_cancel_right,
      if_neg hQ, div_self hQ]
  · simp only [box_iou]
    rw [min_comm c.x2 d.x2, max_comm c.x1 d.x1, min_comm c.y2 d.y2,
      max_comm c.y1 d.y1,
      add_comm ((c.x2 - c.x1) * (c.y2 - c.y1)) ((d.x2 - d.x1) * (d.y2 - d.y1))]
  · have h0 : max 0 (min e.x2 f.x2 - max e.x1 f.x1) *
        max 0 (min e.y2 f.y2 - max e.y1 f.y1) = 0 := by
      rcases hdisj with h | h
      · rw [max_eq_left (by omega : min e.x2 f.x2 - max e.x1 f.x1 ≤ 0), zero_mul]
      · rw [max_eq_left (by omega : min e.y2 f.y2 - max e.y1 f.y1 ≤ 0), mul_zero]
    simp [box_iou, h0]

/-- C8 witness: a 10x10 box against itself, an arbitrary pair for
symmetry, and two horizontally disjoint boxes. -/
theorem box_iou_props_witness :
    box_iou ⟨0, 0, 10, 10⟩ ⟨0, 0, 10, 10⟩ = some 1 ∧
    box_iou ⟨1, 2, 3, 4⟩ ⟨5, 6, 7, 8⟩ = box_iou ⟨5, 6, 7, 8⟩ ⟨1, 2, 3, 4⟩ ∧
    box_iou ⟨0, 0, 10, 10⟩ ⟨20, 0, 30, 10⟩ = some 0 :=
  box_iou_props ⟨0, 0, 10, 10⟩ ⟨1, 2, 3, 4⟩ ⟨5, 6, 7, 8⟩ ⟨0, 0, 10, 10⟩
    ⟨20, 0, 30, 10⟩ (by decide) (by decide) (by left; decide)

/-- C9: when the `person` key is absent from the frame detections,
`check_person_on_object` returns `False` straight away, whatever
furniture detections are present. -/
theorem no_person_no_fall (info : Info) (h : info.person = []) :
    check_person_on_object info (1/10) (35/100) = some false := by
  simp [check_person_on_object, h]

/-- C9 witness: a frame with furniture of every class but no person. -/
theorem no_person_no_fall_witness :
    check_person_on_object ⟨[], [⟨0, 0, 5, 5⟩], [⟨1, 1, 8, 8⟩], [⟨2, 2, 9, 9⟩]⟩
      (1/10) (35/100) = some false :=
  no_person_no_fall ⟨[], [⟨0, 0, 5, 5⟩], [⟨1, 1, 8, 8⟩], [⟨2, 2, 9, 9⟩]⟩ rfl

/-- C10: with at least one person present, `check_person_on_object`
returns the single frame-level boolean "no person in the frame has a
qualifying support": the accumulator `actually_fall` is set to `True`
once before the person loop, and once any person sets it to `False` it
stays `False` — the person loop entered with a `False` accumulator
returns `some false` no matter which persons follow. -/
theorem check_person_single_accumulator (info : Info) (ps : List Box)
    (hne : info.person ≠ []) (hw : ∀ p ∈ info.person, p.x1 < p.x2)
    (hps : ∀ p ∈ ps, p.x1 < p.x2) :
    check_person_on_object info (1/10) (35/100) =
      some (!(info.person.any (personSupported (1/10) (35/100) info))) ∧
    personLoop (1/10) (35/100) info false ps = some false := by
  refine ⟨check_person_eq (1/10) (35/100) info hne hw, ?_⟩
  rw [personLoop_eq (1/10) (35/100) info ps hps false]
  simp

/-- C10 witness: the supported-person frame, and a person-loop started
with a false accumulator on an unsupported person. -/
theorem check_person_single_accumulator_witness :
    check_person_on_object ⟨[⟨100, 200, 260, 260⟩], [], [⟨80, 180, 280, 280⟩], []⟩
        (1/10) (35/100) =
      some (!((⟨[⟨100, 200, 260, 260⟩], [], [⟨80, 180, 280, 280⟩], []⟩ : Info).person.any
        (personSupported (1/10) (35/100)
          ⟨[⟨100, 200, 260, 260⟩], [], [⟨80, 180, 280, 280⟩], []⟩))) ∧
    personLoop (1/10) (35/100) ⟨[⟨100, 200, 260, 260⟩], [], [⟨80, 180, 280, 280⟩], []⟩
      false [⟨1000, 1000, 1160, 1060⟩] = some false :=
  check_person_single_accumulator
    ⟨[⟨100, 200, 260, 260⟩], [], [⟨80, 180, 280, 280⟩], []⟩
    [⟨1000, 1000, 1160, 1060⟩] (by simp)
    (by intro p hp; simp at hp; subst hp; decide)
    (by intro p hp; simp at hp; subst hp; decide)

end FallDemo
